import Mathlib

/-!
Shallow embedding of the AI_Quiz repository: the quiz-taking state machine
(`QuizFlow` / `QuizTaker`), the roster operations (`supabaseService`), the
generation-response validator (`generateQuizQuestions`) and the generation
HTTP endpoint (`api/generate-quiz`), together with theorems settling the
spec claims about them.

Conventions of the embedding:
- The external relational data store is a `Store` value threaded explicitly;
  a fallible store call is modelled by a `Bool` flag saying whether that
  call succeeds, and a failed call leaves the store unchanged (in the source
  a throw happens before any mutation, or the failed insert inserts nothing).
- JavaScript duck-typed JSON values are modelled by the inductive `JVal`,
  with numbers as `Rat` (JSON numbers need not be integers).
- React `useState` setters become explicit state records returned by the
  handler functions.
-/

namespace AIQuiz

/-- `types.ts`: a multiple-choice question. `correct_answer` is the 1-based
index of the correct option. -/
structure Question where
  id : String
  question_text : String
  options : List String
  correct_answer : Int
deriving DecidableEq, Repr

/-- `types.ts`: a quiz project (quiz definition). -/
structure Project where
  id : String
  name : String
  questions : List Question
  is_published : Bool
deriving DecidableEq, Repr

/-- `types.ts`: a registered roster user. -/
structure User where
  id : String
  name : String
deriving DecidableEq, Repr

/-- `types.ts`: an accepted perfect-score completion record. -/
structure Submission where
  id : String
  projectId : String
  userId : String
  submittedAt : String
  attempt_count : Nat
deriving DecidableEq, Repr

/-- `types.ts`: one grading event record. -/
structure Attempt where
  id : String
  projectId : String
  userId : String
  score : Nat
  attemptedAt : String
deriving DecidableEq, Repr

/-- The external relational data store: the `users`, `submissions` and
`attempts` collections reached through the supabase client. -/
structure Store where
  users : List User
  submissions : List Submission
  attempts : List Attempt
deriving DecidableEq, Repr

/-- JS `String.prototype.trim`, modelled over the character list of the
string: whitespace stripped from both ends. (The Lean core `String.trim` is
not used because the embedding needs a function the kernel can evaluate.) -/
def jsTrim (s : String) : String :=
  String.mk (((s.data.dropWhile Char.isWhitespace).reverse.dropWhile Char.isWhitespace).reverse)

/-! ## QuizTaker grading (`src/unnamed/part_001`, `QuizTaker`) -/

/-- JS `answers[q.id]` on the `Record<string, number>` of recorded answers:
first binding for the id, `none` when unanswered. -/
def answerFor (answers : List (String × Int)) (qid : String) : Option Int :=
  match answers with
  | [] => none
  | (k, v) :: rest => if k == qid then some v else answerFor rest qid

/-- `QuizTaker.gradeQuiz`: folds over the questions incrementing
`correctCount` whenever the recorded answer strictly equals
`correct_answer` (an unanswered question never matches). -/
def gradeQuiz (questions : List Question) (answers : List (String × Int)) : Nat :=
  questions.foldl
    (fun correctCount q =>
      if answerFor answers q.id = some q.correct_answer then correctCount + 1
      else correctCount) 0

/-- `QuizTaker.isPerfectScore`: `questions.length > 0 && score === questions.length`.
The submit button is rendered exactly when the result is shown and this holds. -/
def isPerfectScore (questions : List Question) (score : Nat) : Bool :=
  decide (0 < questions.length) && score == questions.length

/-- A question counted as correct by `gradeQuiz`. -/
def answeredCorrectly (answers : List (String × Int)) (q : Question) : Bool :=
  answerFor answers q.id == some q.correct_answer

theorem gradeQuiz_go (questions : List Question) (answers : List (String × Int))
    (acc : Nat) :
    questions.foldl
      (fun correctCount q =>
        if answerFor answers q.id = some q.correct_answer then correctCount + 1
        else correctCount) acc
      = acc + questions.countP (answeredCorrectly answers) := by
  induction questions generalizing acc with
  | nil => simp
  | cons q rest ih =>
      simp only [List.foldl_cons, List.countP_cons, answeredCorrectly]
      by_cases h : answerFor answers q.id = some q.correct_answer
      · simp [h, ih]
        omega
      · have hb : (answerFor answers q.id == some q.correct_answer) = false := by
          simpa using h
        simp [h, hb, ih]

theorem gradeQuiz_eq_countP (questions : List Question)
    (answers : List (String × Int)) :
    gradeQuiz questions answers = questions.countP (answeredCorrectly answers) := by
  simpa using gradeQuiz_go questions answers 0

/-! ## Quiz-taking state machine (`src/components/quiz/QuizFlow.tsx`) -/

/-- `QuizFlow.pageState`: the three states of one respondent's journey. -/
inductive PageState where
  | start
  | taking
  | complete
deriving DecidableEq, Repr

/-- `QuizFlow` submit path, `supabaseClient.from('attempts')...count: 'exact'`:
the authoritative count of attempts for `(project_id, user_id)`, read fresh
from the data store. -/
def countAttemptsQuery (store : Store) (pid uid : String) : Nat :=
  (store.attempts.filter (fun a => a.projectId == pid && a.userId == uid)).length

/-- `QuizFlow` load effect: whenever identity and project are both known and
the respondent is not a guest, if a Submission already exists for
`(projectId, userId)` the page state is forced to `complete`; otherwise the
page state is left unchanged. -/
def checkExistingSubmission (submissions : List Submission)
    (currentUserId : Option String) (project : Option Project) (isGuest : Bool)
    (pageState : PageState) : PageState :=
  match currentUserId, project with
  | some uid, some p =>
      if !isGuest && submissions.any (fun s => s.userId == uid && s.projectId == p.id)
      then PageState.complete
      else pageState
  | _, _ => pageState

/-- `QuizFlow.handleGrade`: a guest records nothing; a registered respondent
with a known project inserts one Attempt row with the given score through
`addAttempt` (`attemptInsertOk` says whether that store insert succeeds; a
failed insert throws and inserts nothing). Returns the store after the call
together with the outcome. -/
def handleGrade (store : Store) (isGuest : Bool) (project : Option Project)
    (currentUserId : Option String) (attemptInsertOk : Bool) (score : Nat)
    (now newId : String) : Store × Except String Unit :=
  if isGuest then (store, Except.ok ())
  else
    match project, currentUserId with
    | some p, some uid =>
        if attemptInsertOk then
          ({ store with
              attempts := store.attempts ++ [⟨newId, p.id, uid, score, now⟩] },
            Except.ok ())
        else (store, Except.error "attempt insert failed")
    | _, _ => (store, Except.ok ())

/-- `QuizFlow.handleSubmit`. A guest transitions to `complete` with no store
access. A registered respondent needs a project, an identity and a supabase
client; it then (1) runs the fresh attempt-count query against the store
(`countOk` = that query succeeds), (2) inserts exactly one Submission whose
`attempt_count` is the freshly read count (`insertOk` = that insert
succeeds), and (3) transitions to `complete`. Any failure throws with the
store unmutated and no new page state. `mirrorAttempts` is the in-memory
attempts mirror held by the application context; as in the source, the
handler never reads it. -/
def handleSubmit (store : Store) (mirrorAttempts : List Attempt) (isGuest : Bool)
    (project : Option Project) (currentUserId : Option String) (hasClient : Bool)
    (countOk insertOk : Bool) (now newId : String) :
    Store × Except String PageState :=
  if isGuest then (store, Except.ok PageState.complete)
  else
    match project, currentUserId with
    | some p, some uid =>
        if !hasClient then (store, Except.error "提出処理に必要な情報が不足しています。")
        else if !countOk then (store, Except.error "attempt count query failed")
        else
          let freshCount := countAttemptsQuery store p.id uid
          if insertOk then
            ({ store with
                submissions := store.submissions ++
                  [⟨newId, p.id, uid, now, freshCount⟩] },
              Except.ok PageState.complete)
          else (store, Except.error "submission insert failed")
    | _, _ => (store, Except.error "提出処理に必要な情報が不足しています。")

/-- `QuizTaker` component state: recorded answers, whether the graded result
is shown, the last computed score, and the in-flight-submission flag. -/
structure TakerState where
  answers : List (String × Int)
  showResult : Bool
  score : Nat
  isSubmitting : Bool
deriving DecidableEq, Repr

/-- `QuizTaker.handleFinalSubmit`: sets `isSubmitting`, awaits the
`onSubmit` callback (`QuizFlow.handleSubmit`); on success the page state
advances; on a thrown error an alert is shown, `isSubmitting` is reset and
the page state is left where it was. The last component is the alert message
shown to the user, if any. -/
def handleFinalSubmit (store : Store) (mirrorAttempts : List Attempt)
    (isGuest : Bool) (project : Option Project) (currentUserId : Option String)
    (hasClient : Bool) (countOk insertOk : Bool) (now newId : String)
    (pageState : PageState) (taker : TakerState) :
    Store × PageState × TakerState × Option String :=
  let tk := { taker with isSubmitting := true }
  match handleSubmit store mirrorAttempts isGuest project currentUserId hasClient
      countOk insertOk now newId with
  | (store2, Except.ok ps2) => (store2, ps2, tk, none)
  | (store2, Except.error _) =>
      (store2, pageState, { tk with isSubmitting := false },
        some "提出に失敗しました。もう一度お試しください。")

/-! ## Roster operations (`src/services/supabaseService.ts`) -/

/-- `supabaseService.deleteUser`: first queries the submissions of the user
(`limit(1)`; `queryOk` = that query succeeds); if any submission references
the user it throws the integrity-guard message; otherwise it deletes the
user row (`deleteOk` = that delete succeeds). Every throw happens before any
mutation, so the returned store is unchanged on error. -/
def deleteUser (store : Store) (id : String) (queryOk deleteOk : Bool) :
    Store × Except String Unit :=
  if !queryOk then (store, Except.error "submission query failed")
  else if 0 < ((store.submissions.filter (fun s => s.userId == id)).take 1).length
  then (store, Except.error "提出記録があるため、このユーザーは削除できません。")
  else if deleteOk then
    ({ store with users := store.users.filter (fun u => !(u.id == id)) },
      Except.ok ())
  else (store, Except.error "user delete failed")

/-- An incoming roster row of `replaceUsers` (`Omit<User, 'id'>`). -/
structure NewUser where
  name : String
  role : String
deriving DecidableEq, Repr

/-- `replaceUsers`: the `newNames` set — trimmed names of the incoming list. -/
def newNames (usersData : List NewUser) : List String :=
  usersData.map (fun u => jsTrim u.name)

/-- `replaceUsers`: the `existingUsersMap` keys — trimmed names of the
existing roster (only membership is ever consulted). -/
def existingNames (existingUsers : List User) : List String :=
  existingUsers.map (fun u => jsTrim u.name)

/-- `replaceUsers`: `usersToDelete` — existing users whose trimmed name is
absent from the incoming list. -/
def usersToDelete (existingUsers : List User) (usersData : List NewUser) :
    List User :=
  existingUsers.filter (fun u => !(newNames usersData).contains (jsTrim u.name))

/-- `replaceUsers`: the deletion candidates whose id appears in
`submittedUserIds` are counted as protected and skipped. -/
def protectedUsers (existingUsers : List User) (usersData : List NewUser)
    (submittedUserIds : List String) : List User :=
  (usersToDelete existingUsers usersData).filter
    (fun u => submittedUserIds.contains u.id)

/-- `replaceUsers`: `deletableUserIds` sources — deletion candidates with no
submission on record; these are the rows actually deleted. -/
def deletableUsers (existingUsers : List User) (usersData : List NewUser)
    (submittedUserIds : List String) : List User :=
  (usersToDelete existingUsers usersData).filter
    (fun u => !submittedUserIds.contains u.id)

/-- `replaceUsers`: `usersToAdd` — incoming rows whose trimmed name is not a
key of `existingUsersMap`; these are the rows inserted. -/
def usersToAdd (existingUsers : List User) (usersData : List NewUser) :
    List NewUser :=
  usersData.filter (fun u => !(existingNames existingUsers).contains (jsTrim u.name))

/-! ## JSON values and the generation-response validator
(`src/unnamed/part_003`, `generateQuizQuestions`) -/

/-- A parsed JSON value as JavaScript sees it; numbers are rationals since a
JSON number need not be an integer. -/
inductive JVal where
  | jnull
  | jbool (b : Bool)
  | jnum (n : Rat)
  | jstr (s : String)
  | jarr (elems : List JVal)
  | jobj (fields : List (String × JVal))

/-- JS property access `v?.k`: a field of an object, `undefined` (here
`none`) on anything else or when the key is absent. -/
def getField (v : JVal) (key : String) : Option JVal :=
  match v with
  | JVal.jobj fields => lookupField fields key
  | _ => none
where
  lookupField : List (String × JVal) → String → Option JVal
    | [], _ => none
    | (k, w) :: rest, key => if k == key then some w else lookupField rest key

/-- `typeof opt === "string"` on a parsed JSON value. -/
def isStringItem : JVal → Bool
  | JVal.jstr _ => true
  | _ => false

/-- Validator clause `hasQuestion`:
`typeof q?.question_text === "string" && q.question_text.trim().length > 0`. -/
def hasQuestionCheck (q : JVal) : Bool :=
  match getField q "question_text" with
  | some (JVal.jstr s) => decide (0 < (jsTrim s).length)
  | _ => false

/-- Validator clause `hasOptions`: `Array.isArray(q?.options) &&
q.options.length === 4 && q.options.every(opt => typeof opt === "string")`. -/
def hasOptionsCheck (q : JVal) : Bool :=
  match getField q "options" with
  | some (JVal.jarr opts) => opts.length == 4 && opts.all isStringItem
  | _ => false

/-- Validator clause `hasAnswer`: `typeof q?.correct_answer === "number" &&
q.correct_answer >= 1 && q.correct_answer <= 4`. Note the source checks only
that the value is a number in range, not that it is an integer. -/
def hasAnswerCheck (q : JVal) : Bool :=
  match getField q "correct_answer" with
  | some (JVal.jnum n) => decide (1 ≤ n) && decide (n ≤ 4)
  | _ => false

/-- `generateQuizQuestions` sanitizing filter over the parsed top-level
array: items failing any clause are dropped; the filter itself never
throws. -/
def sanitizeQuestions (generatedQuestions : List JVal) : List JVal :=
  generatedQuestions.filter
    (fun q => hasQuestionCheck q && hasOptionsCheck q && hasAnswerCheck q)

/-- The survivor shape claimed by the spec, stated with an integrality
requirement on `correct_answer` (`den = 1`): written from the spec's words,
to be compared against what `sanitizeQuestions` actually enforces. -/
def specSurvivorIntegerAnswer (q : JVal) : Bool :=
  match getField q "correct_answer" with
  | some (JVal.jnum n) => n.den == 1 && decide (1 ≤ n) && decide (n ≤ 4)
  | _ => false

/-! ## Generation HTTP endpoint (`src/api/generate-quiz.ts`) -/

/-- An HTTP response as built by `sendJson`: the status and the JSON
payload (the JSON content type and `no-store` cache header are constants). -/
structure ApiResponse where
  status : Nat
  payload : JVal

/-- JS truthiness of `process.env.GEMINI_API_KEY`: configured iff present
and non-empty. -/
def keyConfigured : Option String → Bool
  | none => false
  | some s => !(s == "")

/-- `parseRequestBody`: `request.json()` with a parse failure (or an absent
body) swallowed into `{}`. `none` models a body that is absent or not
parseable as JSON. -/
def parseRequestBody : Option JVal → JVal
  | some v => v
  | none => JVal.jobj []

/-- The destructured `transcript` field when it is a string
(`typeof transcript === "string"`), else `none`. -/
def transcriptOf (body : JVal) : Option String :=
  match getField body "transcript" with
  | some (JVal.jstr s) => some s
  | _ => none

/-- The guard `typeof transcript !== "string" || !transcript.trim()`,
phrased positively: the transcript is a string that is non-blank after
trimming. -/
def transcriptValid (body : JVal) : Bool :=
  match transcriptOf body with
  | some s => !(jsTrim s == "")
  | none => false

/-- `api/generate-quiz.ts` `handler`. `genResult` is the outcome of the
downstream `generateQuizQuestions` call (only reached when every earlier
guard passes). -/
def handler (apiKey : Option String) (method : String) (rawBody : Option JVal)
    (genResult : Except String JVal) : ApiResponse :=
  if method == "GET" then
    ⟨200, JVal.jobj [("ready", JVal.jbool (keyConfigured apiKey))]⟩
  else if !(method == "POST") then
    ⟨405, JVal.jobj [("error", JVal.jstr "Method not allowed.")]⟩
  else if !(keyConfigured apiKey) then
    ⟨503, JVal.jobj [("error", JVal.jstr "Gemini APIキーが設定されていません。")]⟩
  else
    let body := parseRequestBody rawBody
    if !(transcriptValid body) then
      ⟨400, JVal.jobj [("error", JVal.jstr "文字起こしは必須です。")]⟩
    else
      match genResult with
      | Except.ok questions => ⟨200, JVal.jobj [("questions", questions)]⟩
      | Except.error e => ⟨500, JVal.jobj [("error", JVal.jstr e)]⟩

/-! ## Helper lemmas about the validator clauses -/

theorem hasQuestionCheck_spec {q : JVal} (h : hasQuestionCheck q = true) :
    ∃ s, getField q "question_text" = some (JVal.jstr s) ∧ 0 < (jsTrim s).length := by
  unfold hasQuestionCheck at h
  cases hg : getField q "question_text" with
  | none => rw [hg] at h; exact absurd h (by simp)
  | some v =>
      rw [hg] at h
      cases v with
      | jstr s => exact ⟨s, rfl, of_decide_eq_true h⟩
      | jnull => exact absurd h (by simp)
      | jbool b => exact absurd h (by simp)
      | jnum n => exact absurd h (by simp)
      | jarr es => exact absurd h (by simp)
      | jobj fs => exact absurd h (by simp)

theorem hasOptionsCheck_spec {q : JVal} (h : hasOptionsCheck q = true) :
    ∃ opts, getField q "options" = some (JVal.jarr opts) ∧ opts.length = 4
      ∧ ∀ o ∈ opts, ∃ s, o = JVal.jstr s := by
  unfold hasOptionsCheck at h
  cases hg : getField q "options" with
  | none => rw [hg] at h; exact absurd h (by simp)
  | some v =>
      rw [hg] at h
      cases v with
      | jarr opts =>
          rw [Bool.and_eq_true] at h
          refine ⟨opts, rfl, by simpa using h.1, ?_⟩
          intro o ho
          have := List.all_eq_true.mp h.2 o ho
          cases o with
          | jstr s => exact ⟨s, rfl⟩
          | jnull => exact absurd this (by simp [isStringItem])
          | jbool b => exact absurd this (by simp [isStringItem])
          | jnum n => exact absurd this (by simp [isStringItem])
          | jarr es => exact absurd this (by simp [isStringItem])
          | jobj fs => exact absurd this (by simp [isStringItem])
      | jnull => exact absurd h (by simp)
      | jbool b => exact absurd h (by simp)
      | jnum n => exact absurd h (by simp)
      | jstr s => exact absurd h (by simp)
      | jobj fs => exact absurd h (by simp)

theorem hasAnswerCheck_spec {q : JVal} (h : hasAnswerCheck q = true) :
    ∃ n : Rat, getField q "correct_answer" = some (JVal.jnum n) ∧ 1 ≤ n ∧ n ≤ 4 := by
  unfold hasAnswerCheck at h
  cases hg : getField q "correct_answer" with
  | none => rw [hg] at h; exact absurd h (by simp)
  | some v =>
      rw [hg] at h
      cases v with
      | jnum n =>
          rw [Bool.and_eq_true] at h
          exact ⟨n, rfl, of_decide_eq_true h.1, of_decide_eq_true h.2⟩
      | jnull => exact absurd h (by simp)
      | jbool b => exact absurd h (by simp)
      | jstr s => exact absurd h (by simp)
      | jarr es => exact absurd h (by simp)
      | jobj fs => exact absurd h (by simp)

/-! ## Claim theorems -/

/-- C1: for a registered (non-guest) respondent with a known project,
identity and supabase client, and both store calls succeeding, the submit
transition appends exactly one Submission whose `attempt_count` equals the
attempt count freshly read from the data store for `(projectId, userId)`,
leaves every other collection untouched, and then reaches `complete`;
moreover the result is identical for any two values of the in-memory
attempts mirror (the mirror is never read). -/
theorem claim_C1_submit_fresh_count (store : Store) (mirror m1 m2 : List Attempt)
    (p : Project) (uid now newId : String) :
    handleSubmit store mirror false (some p) (some uid) true true true now newId
      = ({ store with
            submissions := store.submissions ++
              [⟨newId, p.id, uid, now, countAttemptsQuery store p.id uid⟩] },
          Except.ok PageState.complete)
    ∧ handleSubmit store m1 false (some p) (some uid) true true true now newId
      = handleSubmit store m2 false (some p) (some uid) true true true now newId := by
  constructor <;> rfl

/-- C3: on a non-empty question list, the computed score equals the number
of questions whose recorded 1-based answer strictly equals `correct_answer`
(an unanswered question counts as incorrect), the score never exceeds the
number of questions, and the submit action becomes available
(`isPerfectScore`) exactly when the score equals the number of questions. -/
theorem claim_C3_grading (questions : List Question) (answers : List (String × Int))
    (hne : questions ≠ []) :
    gradeQuiz questions answers = questions.countP (answeredCorrectly answers)
    ∧ gradeQuiz questions answers ≤ questions.length
    ∧ (isPerfectScore questions (gradeQuiz questions answers) = true
        ↔ gradeQuiz questions answers = questions.length) := by
  refine ⟨gradeQuiz_eq_countP questions answers, ?_, ?_⟩
  · rw [gradeQuiz_eq_countP]
    exact List.countP_le_length _
  · unfold isPerfectScore
    constructor
    · intro h
      rw [Bool.and_eq_true] at h
      exact eq_of_beq h.2
    · intro h
      have hpos : 0 < questions.length := List.length_pos.mpr hne
      simp [h, hpos]

/-- C3 witness: a two-question quiz with correct answers 1 and 2, answered
`[1, 1]`, is graded and the conjunction of C3 holds for it. -/
theorem claim_C3_grading_witness :
    gradeQuiz [⟨"q1", "t1", ["a", "b", "c", "d"], 1⟩, ⟨"q2", "t2", ["a", "b", "c", "d"], 2⟩]
        [("q1", 1), ("q2", 1)]
      = List.countP
          (answeredCorrectly [("q1", 1), ("q2", 1)])
          [⟨"q1", "t1", ["a", "b", "c", "d"], 1⟩, ⟨"q2", "t2", ["a", "b", "c", "d"], 2⟩]
    ∧ gradeQuiz [⟨"q1", "t1", ["a", "b", "c", "d"], 1⟩, ⟨"q2", "t2", ["a", "b", "c", "d"], 2⟩]
        [("q1", 1), ("q2", 1)] ≤ 2
    ∧ (isPerfectScore [⟨"q1", "t1", ["a", "b", "c", "d"], 1⟩, ⟨"q2", "t2", ["a", "b", "c", "d"], 2⟩]
        (gradeQuiz [⟨"q1", "t1", ["a", "b", "c", "d"], 1⟩, ⟨"q2", "t2", ["a", "b", "c", "d"], 2⟩]
          [("q1", 1), ("q2", 1)]) = true
        ↔ gradeQuiz [⟨"q1", "t1", ["a", "b", "c", "d"], 1⟩, ⟨"q2", "t2", ["a", "b", "c", "d"], 2⟩]
            [("q1", 1), ("q2", 1)] = 2) :=
  claim_C3_grading _ _ (by decide)

/-- C2 (amended): every item surviving the sanitizing filter came from the
input, has a `question_text` that is a string non-empty after trimming, an
`options` array of exactly 4 strings, and a `correct_answer` that is a
number between 1 and 4 (integrality is not checked); the filter result is a
sublist of the input, so invalid items are dropped without any error. -/
theorem claim_C2_sanitize_sound (l : List JVal) (q : JVal)
    (h : q ∈ sanitizeQuestions l) :
    q ∈ l
    ∧ (∃ s, getField q "question_text" = some (JVal.jstr s) ∧ 0 < (jsTrim s).length)
    ∧ (∃ opts, getField q "options" = some (JVal.jarr opts) ∧ opts.length = 4
        ∧ ∀ o ∈ opts, ∃ s, o = JVal.jstr s)
    ∧ (∃ n : Rat, getField q "correct_answer" = some (JVal.jnum n) ∧ 1 ≤ n ∧ n ≤ 4)
    ∧ List.Sublist (sanitizeQuestions l) l := by
  obtain ⟨hql, hpred⟩ := List.mem_filter.mp h
  rw [Bool.and_eq_true, Bool.and_eq_true] at hpred
  obtain ⟨⟨hq, ho⟩, ha⟩ := hpred
  exact ⟨hql, hasQuestionCheck_spec hq, hasOptionsCheck_spec ho,
    hasAnswerCheck_spec ha, List.filter_sublist l⟩

/-- A syntactically well-formed generated item whose `correct_answer` is the
non-integer number 5/2: it survives the sanitizing filter even though the
spec requires survivors to carry an integer answer. -/
def badGenItem : JVal :=
  JVal.jobj
    [("question_text", JVal.jstr "Q1"),
     ("options", JVal.jarr [JVal.jstr "A", JVal.jstr "B", JVal.jstr "C", JVal.jstr "D"]),
     ("correct_answer", JVal.jnum (mkRat 5 2))]

/-- C2 counterexample: the item with `correct_answer = 5/2` survives the
validator unchanged, yet fails the spec-side integer-answer requirement, so
the claim that every survivor has an integer `correct_answer` is false. -/
theorem claim_C2_counterexample :
    sanitizeQuestions [badGenItem] = [badGenItem]
    ∧ specSurvivorIntegerAnswer badGenItem = false := by
  have hpred : (hasQuestionCheck badGenItem && hasOptionsCheck badGenItem
      && hasAnswerCheck badGenItem) = true := by decide
  constructor
  · unfold sanitizeQuestions
    rw [List.filter_cons, if_pos hpred]
    rfl
  · decide

/-- C2 witness: instantiating the amended soundness theorem on the singleton
list containing `badGenItem`. -/
theorem claim_C2_sanitize_sound_witness :
    badGenItem ∈ [badGenItem]
    ∧ (∃ s, getField badGenItem "question_text" = some (JVal.jstr s) ∧ 0 < (jsTrim s).length)
    ∧ (∃ opts, getField badGenItem "options" = some (JVal.jarr opts) ∧ opts.length = 4
        ∧ ∀ o ∈ opts, ∃ s, o = JVal.jstr s)
    ∧ (∃ n : Rat, getField badGenItem "correct_answer" = some (JVal.jnum n) ∧ 1 ≤ n ∧ n ≤ 4)
    ∧ List.Sublist (sanitizeQuestions [badGenItem]) [badGenItem] :=
  claim_C2_sanitize_sound [badGenItem] badGenItem
    (by
      unfold sanitizeQuestions
      refine List.mem_filter.mpr ⟨List.mem_singleton_self _, ?_⟩
      decide)

/-- C4: bulk roster replace is a pure set reconciliation keyed by trimmed
name: the inserted rows are exactly the incoming rows whose trimmed name is
absent from the existing roster; the actually-deleted users are exactly the
existing users absent from the incoming list and without a submission; the
protected users are exactly the existing users absent from the incoming list
and with a submission; and no inserted row shares a trimmed name with a
deleted user. -/
theorem claim_C4_replace_reconciliation (existingUsers : List User)
    (usersData : List NewUser) (submittedUserIds : List String) :
    (∀ u, u ∈ usersToAdd existingUsers usersData ↔
        u ∈ usersData ∧ jsTrim u.name ∉ existingNames existingUsers)
    ∧ (∀ u, u ∈ deletableUsers existingUsers usersData submittedUserIds ↔
        u ∈ existingUsers ∧ jsTrim u.name ∉ newNames usersData
          ∧ u.id ∉ submittedUserIds)
    ∧ (∀ u, u ∈ protectedUsers existingUsers usersData submittedUserIds ↔
        u ∈ existingUsers ∧ jsTrim u.name ∉ newNames usersData
          ∧ u.id ∈ submittedUserIds)
    ∧ (∀ a ∈ usersToAdd existingUsers usersData,
        ∀ d ∈ deletableUsers existingUsers usersData submittedUserIds,
          jsTrim a.name ≠ jsTrim d.name) := by
  refine ⟨?_, ?_, ?_, ?_⟩
  · intro u
    simp [usersToAdd, List.mem_filter]
  · intro u
    simp [deletableUsers, usersToDelete, List.mem_filter]
    try tauto
  · intro u
    simp [protectedUsers, usersToDelete, List.mem_filter]
    try tauto
  · intro a ha d hd heq
    have ha2 : a ∈ usersData ∧ jsTrim a.name ∉ existingNames existingUsers := by
      simpa [usersToAdd, List.mem_filter] using ha
    have hd2 : d ∈ existingUsers ∧ jsTrim d.name ∉ newNames usersData := by
      have hm := List.mem_filter.mp hd
      refine ⟨(List.mem_filter.mp hm.1).1, ?_⟩
      have h2 := (List.mem_filter.mp hm.1).2
      simpa using h2
    have hin : jsTrim a.name ∈ newNames usersData :=
      List.mem_map_of_mem (fun u => jsTrim u.name) ha2.1
    rw [heq] at hin
    exact hd2.2 hin

/-- C4 witness: with roster `[Alice, Bob]`, incoming list `[Alice, Carol]`
and Bob having a submission, Carol is inserted, Bob is protected, and the
deletable set is empty. -/
theorem claim_C4_replace_reconciliation_witness :
    (⟨"Carol", "employee"⟩ : NewUser)
      ∈ usersToAdd [⟨"1", "Alice"⟩, ⟨"2", "Bob"⟩]
          [⟨"Alice", "employee"⟩, ⟨"Carol", "employee"⟩]
    ∧ (⟨"2", "Bob"⟩ : User)
      ∈ protectedUsers [⟨"1", "Alice"⟩, ⟨"2", "Bob"⟩]
          [⟨"Alice", "employee"⟩, ⟨"Carol", "employee"⟩] ["2"]
    ∧ (⟨"2", "Bob"⟩ : User)
      ∉ deletableUsers [⟨"1", "Alice"⟩, ⟨"2", "Bob"⟩]
          [⟨"Alice", "employee"⟩, ⟨"Carol", "employee"⟩] ["2"] := by
  have h := claim_C4_replace_reconciliation [⟨"1", "Alice"⟩, ⟨"2", "Bob"⟩]
    [⟨"Alice", "employee"⟩, ⟨"Carol", "employee"⟩] ["2"]
  refine ⟨(h.1 _).mpr ⟨by decide, by decide⟩,
    (h.2.2.1 _).mpr ⟨by decide, by decide, by decide⟩, ?_⟩
  intro hmem
  have h2 := (h.2.1 _).mp hmem
  exact absurd h2.2.2 (by decide)

/-- C5: deleting a user who has at least one Submission fails with an error
and leaves the users, submissions and attempts collections unchanged,
whatever the outcome flags of the two store calls would have been. -/
theorem claim_C5_delete_protected (store : Store) (id : String)
    (queryOk deleteOk : Bool) (hsub : ∃ s ∈ store.submissions, s.userId = id) :
    (deleteUser store id queryOk deleteOk).1 = store
    ∧ ∃ e, (deleteUser store id queryOk deleteOk).2 = Except.error e := by
  unfold deleteUser
  cases queryOk with
  | false => exact ⟨rfl, _, rfl⟩
  | true =>
      have hlen : 0 < ((store.submissions.filter (fun s => s.userId == id)).take 1).length := by
        obtain ⟨s, hs, he⟩ := hsub
        have hmem : s ∈ store.submissions.filter (fun s => s.userId == id) :=
          List.mem_filter.mpr ⟨hs, by simp [he]⟩
        have hne : store.submissions.filter (fun s => s.userId == id) ≠ [] :=
          List.ne_nil_of_mem hmem
        have hpos := List.length_pos.mpr hne
        rw [List.length_take]
        omega
      simp only [Bool.not_true, Bool.false_eq_true, if_false, hlen, if_pos hlen]
      exact ⟨rfl, _, rfl⟩

/-- C5 witness: deleting user `u1`, who has one submission on record, errors
and leaves the store untouched. -/
theorem claim_C5_delete_protected_witness :
    (deleteUser ⟨[⟨"u1", "Alice"⟩], [⟨"s1", "p1", "u1", "t0", 1⟩], []⟩ "u1" true true).1
      = ⟨[⟨"u1", "Alice"⟩], [⟨"s1", "p1", "u1", "t0", 1⟩], []⟩
    ∧ ∃ e, (deleteUser ⟨[⟨"u1", "Alice"⟩], [⟨"s1", "p1", "u1", "t0", 1⟩], []⟩ "u1" true true).2
      = Except.error e :=
  claim_C5_delete_protected _ "u1" true true ⟨⟨"s1", "p1", "u1", "t0", 1⟩, by decide, rfl⟩

/-- C6: whenever identity and project are both known for a non-guest
respondent who already has a Submission for that project, the load-time
check forces the page state to `complete` from any prior state, and
re-running the check any positive number of times (page reloads) still
yields `complete` — the state machine never lands in `taking`. -/
theorem claim_C6_force_complete (submissions : List Submission) (uid : String)
    (p : Project) (hsub : ∃ s ∈ submissions, s.userId = uid ∧ s.projectId = p.id) :
    ∀ ps : PageState,
      checkExistingSubmission submissions (some uid) (some p) false ps = PageState.complete
      ∧ ∀ n : Nat,
          (fun st => checkExistingSubmission submissions (some uid) (some p) false st)^[n + 1] ps
            = PageState.complete := by
  have key : ∀ st, checkExistingSubmission submissions (some uid) (some p) false st
      = PageState.complete := by
    intro st
    have hb : submissions.any (fun s => s.userId == uid && s.projectId == p.id) = true := by
      rw [List.any_eq_true]
      obtain ⟨s, hs, h1, h2⟩ := hsub
      exact ⟨s, hs, by simp [h1, h2]⟩
    unfold checkExistingSubmission
    simp [hb]
  intro ps
  refine ⟨key ps, ?_⟩
  intro n
  rw [Function.iterate_succ_apply']
  exact key _

/-- C6 witness: user `u1` already has a submission for project `p1`; loading
from state `taking` (and again after a reload) yields `complete`. -/
theorem claim_C6_force_complete_witness :
    checkExistingSubmission [⟨"s1", "p1", "u1", "t0", 1⟩] (some "u1")
        (some ⟨"p1", "P", [], true⟩) false PageState.taking = PageState.complete
    ∧ (fun st => checkExistingSubmission [⟨"s1", "p1", "u1", "t0", 1⟩] (some "u1")
        (some ⟨"p1", "P", [], true⟩) false st)^[2] PageState.start = PageState.complete := by
  have h := claim_C6_force_complete [⟨"s1", "p1", "u1", "t0", 1⟩] "u1"
    ⟨"p1", "P", [], true⟩ ⟨⟨"s1", "p1", "u1", "t0", 1⟩, by decide, rfl, rfl⟩
  exact ⟨(h PageState.taking).1, (h PageState.start).2 1⟩

/-- C7: when either store call of the submit transition fails for a
registered respondent, the transition to `complete` does not occur: the
store is unchanged (no Submission created), the page state stays `taking`,
the graded state of the taker (answers, shown result, score) is intact with
only `isSubmitting` reset, and the retryable error alert is shown — nothing
retries automatically. -/
theorem claim_C7_submit_failure (store : Store) (mirror : List Attempt)
    (p : Project) (uid now newId : String) (countOk insertOk : Bool)
    (taker : TakerState) (hfail : countOk = false ∨ insertOk = false) :
    handleFinalSubmit store mirror false (some p) (some uid) true countOk insertOk
        now newId PageState.taking taker
      = (store, PageState.taking, { taker with isSubmitting := false },
          some "提出に失敗しました。もう一度お試しください。") := by
  unfold handleFinalSubmit handleSubmit
  rcases hfail with h | h
  · subst h
    simp
  · subst h
    cases countOk <;> simp

/-- C7 witness: with the fresh-count query failing, submission from `taking`
leaves the store, the page state and the graded taker state unchanged and
shows the retry alert. -/
theorem claim_C7_submit_failure_witness :
    handleFinalSubmit ⟨[], [], []⟩ [] false (some ⟨"p1", "P", [], true⟩) (some "u1")
        true false true "t1" "sub1" PageState.taking ⟨[("q1", 1)], true, 1, false⟩
      = (⟨[], [], []⟩, PageState.taking, ⟨[("q1", 1)], true, 1, false⟩,
          some "提出に失敗しました。もう一度お試しください。") :=
  claim_C7_submit_failure ⟨[], [], []⟩ [] ⟨"p1", "P", [], true⟩ "u1" "t1" "sub1"
    false true ⟨[("q1", 1)], true, 1, false⟩ (Or.inl rfl)

/-- C8: a guest session persists nothing: the grade action leaves the store
untouched and succeeds, and the submit action reaches `complete` with the
store untouched — zero Submission and zero Attempt records are created. -/
theorem claim_C8_guest_frame (store : Store) (mirror : List Attempt)
    (project : Option Project) (currentUserId : Option String)
    (attemptInsertOk hasClient countOk insertOk : Bool) (score : Nat)
    (now1 id1 now2 id2 : String) (taker : TakerState) :
    handleGrade store true project currentUserId attemptInsertOk score now1 id1
      = (store, Except.ok ())
    ∧ handleFinalSubmit store mirror true project currentUserId hasClient countOk
        insertOk now2 id2 PageState.taking taker
      = (store, PageState.complete, { taker with isSubmitting := true }, none) := by
  constructor <;> rfl

/-- C9: a POST to the generation endpoint with a configured credential and a
body whose transcript is missing, not a string, or blank after trimming is
answered with status 400, for every request body (hence for every
`questionCount`) and every would-be downstream result. -/
theorem claim_C9_blank_transcript_400 (apiKey : Option String)
    (rawBody : Option JVal) (genResult : Except String JVal)
    (hkey : keyConfigured apiKey = true)
    (htr : transcriptValid (parseRequestBody rawBody) = false) :
    handler apiKey "POST" rawBody genResult
      = ⟨400, JVal.jobj [("error", JVal.jstr "文字起こしは必須です。")]⟩ := by
  unfold handler
  simp [hkey, htr]

/-- C9 witness: `transcript: ""` with `questionCount: 7` and a configured
key is answered 400. -/
theorem claim_C9_blank_transcript_400_witness :
    handler (some "k") "POST"
        (some (JVal.jobj [("transcript", JVal.jstr ""), ("questionCount", JVal.jnum 7)]))
        (Except.ok (JVal.jarr []))
      = ⟨400, JVal.jobj [("error", JVal.jstr "文字起こしは必須です。")]⟩ :=
  claim_C9_blank_transcript_400 _ _ _ (by decide) (by decide)

/-- C10 counterexample: a POST whose body is absent or unparseable but whose
deployment has no credential configured is answered 503, not 400, so the
claim that such a request always yields the 400 missing-transcript response
is false. -/
theorem claim_C10_counterexample :
    (handler none "POST" none (Except.ok (JVal.jarr []))).status = 503
    ∧ (handler none "POST" none (Except.ok (JVal.jarr []))).status ≠ 400 := by
  exact ⟨rfl, by decide⟩

/-- C10 (amended): a POST whose body is absent or not parseable as JSON has
its body treated as the empty object, is never answered 500 (no uncaught
parse exception reaches the caller), and — when a credential is configured —
is answered with the 400 missing-transcript response. -/
theorem claim_C10_parse_failure (apiKey : Option String)
    (genResult : Except String JVal) :
    parseRequestBody none = JVal.jobj []
    ∧ (handler apiKey "POST" none genResult).status ≠ 500
    ∧ (keyConfigured apiKey = true →
        handler apiKey "POST" none genResult
          = ⟨400, JVal.jobj [("error", JVal.jstr "文字起こしは必須です。")]⟩) := by
  have ht : transcriptValid (parseRequestBody none) = false := by decide
  refine ⟨rfl, ?_, ?_⟩
  · unfold handler
    cases h : keyConfigured apiKey with
    | false => simp [h]
    | true => simp [h, ht]
  · intro hkey
    unfold handler
    simp [hkey, ht]

/-- C10 witness: with a configured key, a POST with an unparseable body is
answered 400 and in particular not 500. -/
theorem claim_C10_parse_failure_witness :
    (handler (some "k") "POST" none (Except.ok (JVal.jarr []))).status ≠ 500
    ∧ handler (some "k") "POST" none (Except.ok (JVal.jarr []))
      = ⟨400, JVal.jobj [("error", JVal.jstr "文字起こしは必須です。")]⟩ := by
  have h := claim_C10_parse_failure (some "k") (Except.ok (JVal.jarr []))
  exact ⟨h.2.1, h.2.2 rfl⟩

end AIQuiz
